import Mathlib

/-!
# Verification of the ironic-redfish power/management adapters

Shallow embedding of `ironic_redfish/power.py` (and, where the management
module is absent from the sources, a model built from the specification).
Python dictionaries become association lists (`dget` models `dict.get`,
`dkeys` models `list(dict)`); the sushy remote-system handle becomes a
structure of fallible operations; each adapter method returns its result
together with the list of vendor calls it issued.
-/

/-- Vendor (sushy) power states reported by the remote system.  The
`other` constructor stands for any vendor value outside the four the
adapter knows about. -/
inductive SushyPowerState where
  | on
  | poweringOn
  | off
  | poweringOff
  | other (s : String)
deriving DecidableEq, Repr

/-- Abstract power states from `ironic.common.states`.  `other` stands
for any further member of that module (ERROR, ...). -/
inductive IronicPowerState where
  | powerOn
  | powerOff
  | reboot
  | other (s : String)
deriving DecidableEq, Repr

/-- Vendor (sushy) reset commands. -/
inductive ResetCmd where
  | resetOn
  | forceOff
  | forceRestart
  | nmi
deriving DecidableEq, Repr

/-- Abstract boot devices from `ironic.common.boot_devices`. -/
inductive BootDevice where
  | pxe
  | disk
  | cdrom
  | bios
deriving DecidableEq, Repr

/-- Vendor (sushy) boot-source targets; `other` is any unmapped value. -/
inductive BootTarget where
  | pxe
  | hdd
  | cd
  | biosSetup
  | other (s : String)
deriving DecidableEq, Repr

/-- Vendor (sushy) boot-source persistence flags. -/
inductive BootEnabled where
  | once
  | continuous
  | other (s : String)
deriving DecidableEq, Repr

/-- A vendor-protocol (sushy) exception, carrying its message. -/
structure SushyError where
  msg : String
deriving DecidableEq, Repr

/-- The normalized error raised by the adapter
(`ironic_redfish.RedfishError(error=...)`).  It carries only the
human-readable message string; no wrapped exception object. -/
structure RedfishError where
  error : String
deriving DecidableEq, Repr

/-- `d.get(k)` on a Python dict modelled as an association list. -/
def dget {α β : Type} [DecidableEq α] : List (α × β) → α → Option β
  | [], _ => none
  | (k, v) :: rest, a => if k = a then some v else dget rest a

/-- `list(d)` on a Python dict: the keys in insertion order. -/
def dkeys {α β : Type} (d : List (α × β)) : List α :=
  d.map Prod.fst

/-- `GET_POWER_STATE_MAP` from `power.py`. -/
def GET_POWER_STATE_MAP : List (SushyPowerState × IronicPowerState) :=
  [(SushyPowerState.on, IronicPowerState.powerOn),
   (SushyPowerState.poweringOn, IronicPowerState.powerOn),
   (SushyPowerState.off, IronicPowerState.powerOff),
   (SushyPowerState.poweringOff, IronicPowerState.powerOff)]

/-- `SET_POWER_STATE_MAP` from `power.py`. -/
def SET_POWER_STATE_MAP : List (IronicPowerState × ResetCmd) :=
  [(IronicPowerState.powerOn, ResetCmd.resetOn),
   (IronicPowerState.powerOff, ResetCmd.forceOff),
   (IronicPowerState.reboot, ResetCmd.forceRestart)]

/-- The node contained in the task; only its uuid is used by the code. -/
structure Node where
  uuid : String
deriving DecidableEq, Repr

/-- The remote-system handle returned by `redfish_utils.get_system`.
Reading `power_state` and issuing commands may raise a vendor-protocol
(sushy) error; the `boot` attribute is the parsed pair of target and
enabled flag. -/
structure System where
  power_state : Except SushyError SushyPowerState
  reset_system : Option ResetCmd → Except SushyError Unit
  boot_target : BootTarget
  boot_enabled : BootEnabled
  set_system_boot_source : Option BootTarget → BootEnabled → Except SushyError Unit

/-- One vendor call issued through the remote-system handle. -/
inductive VendorCall where
  | reset (cmd : Option ResetCmd)
  | setBootSource (target : Option BootTarget) (enabled : BootEnabled)
deriving DecidableEq, Repr

/-- What an adapter method can raise: either the normalized
`RedfishError`, or an uncaught vendor-protocol error propagating as-is. -/
inductive AdapterErr where
  | redfish (e : RedfishError)
  | sushy (e : SushyError)
deriving DecidableEq, Repr

/-- Result of one adapter invocation: the returned value or raised
error, together with the vendor calls issued, in order. -/
def AdapterResult (α : Type) : Type :=
  Except AdapterErr α × List VendorCall

/-- The message built by `set_power_state` on a sushy failure:
`'Redfish set power state failed for node %(node)s. Error: %(error)s'`. -/
def set_power_state_fail_msg (uuid emsg : String) : String :=
  "Redfish set power state failed for node " ++ uuid ++ ". Error: " ++ emsg

/-- The message built by `reboot` on a sushy failure:
`'Redfish reboot failed for node %(node)s. Error: %(error)s'`. -/
def reboot_fail_msg (uuid emsg : String) : String :=
  "Redfish reboot failed for node " ++ uuid ++ ". Error: " ++ emsg

/-- `RedfishPower.get_power_state`: resolve the system, read its power
state and translate it through `GET_POWER_STATE_MAP.get`.  There is no
try/except in the source: a vendor error from the read propagates. -/
def RedfishPower.get_power_state (system : System) :
    AdapterResult (Option IronicPowerState) :=
  match system.power_state with
  | Except.error e => (Except.error (AdapterErr.sushy e), [])
  | Except.ok ps => (Except.ok (dget GET_POWER_STATE_MAP ps), [])

/-- `RedfishPower.set_power_state`: translate the target through
`SET_POWER_STATE_MAP.get` and issue `reset_system`; a sushy error is
logged and re-raised as `RedfishError`. -/
def RedfishPower.set_power_state (node : Node) (system : System)
    (power_state : IronicPowerState) : AdapterResult Unit :=
  let cmd := dget SET_POWER_STATE_MAP power_state
  match system.reset_system cmd with
  | Except.ok _ => (Except.ok (), [VendorCall.reset cmd])
  | Except.error e =>
      (Except.error (AdapterErr.redfish
        ⟨set_power_state_fail_msg node.uuid e.msg⟩),
       [VendorCall.reset cmd])

/-- The reset command chosen by `reboot` once the power state has been
read: FORCE_RESTART when the translation of the read state through
`GET_POWER_STATE_MAP.get` equals POWER_ON, the ON command otherwise
(both pulled from `SET_POWER_STATE_MAP.get`). -/
def rebootCmd (ps : SushyPowerState) : Option ResetCmd :=
  if dget GET_POWER_STATE_MAP ps = some IronicPowerState.powerOn then
    dget SET_POWER_STATE_MAP IronicPowerState.reboot
  else
    dget SET_POWER_STATE_MAP IronicPowerState.powerOn

/-- `RedfishPower.reboot`: read the current power state (outside the
try/except, so a vendor error there propagates), translate it, and
issue FORCE_RESTART when the translated state is POWER_ON, the ON
command otherwise; a sushy error from the reset is re-raised as
`RedfishError`. -/
def RedfishPower.reboot (node : Node) (system : System) : AdapterResult Unit :=
  match system.power_state with
  | Except.error e => (Except.error (AdapterErr.sushy e), [])
  | Except.ok ps =>
      let cmd := rebootCmd ps
      match system.reset_system cmd with
      | Except.ok _ => (Except.ok (), [VendorCall.reset cmd])
      | Except.error e =>
          (Except.error (AdapterErr.redfish
            ⟨reboot_fail_msg node.uuid e.msg⟩),
           [VendorCall.reset cmd])

/-- `RedfishPower.get_supported_power_states`: `list(SET_POWER_STATE_MAP)`. -/
def RedfishPower.get_supported_power_states (_node : Node) :
    List IronicPowerState :=
  dkeys SET_POWER_STATE_MAP

/-- Modelled from the spec: `BOOT_DEVICE_MAP` of the management module
(`ironic_redfish/management.py` is not among the sources).  The
vendor-target → abstract-device direction of the boot-device bijection
{PXE→PXE, DISK→HDD, CDROM→CD, BIOS→BIOS_SETUP}. -/
def BOOT_DEVICE_MAP : List (BootTarget × BootDevice) :=
  [(BootTarget.pxe, BootDevice.pxe),
   (BootTarget.hdd, BootDevice.disk),
   (BootTarget.cd, BootDevice.cdrom),
   (BootTarget.biosSetup, BootDevice.bios)]

/-- Modelled from the spec: `BOOT_DEVICE_MAP_REV` of the management
module, the abstract-device → vendor-target direction of the same
bijection, used by `set_boot_device`. -/
def BOOT_DEVICE_MAP_REV : List (BootDevice × BootTarget) :=
  [(BootDevice.pxe, BootTarget.pxe),
   (BootDevice.disk, BootTarget.hdd),
   (BootDevice.cdrom, BootTarget.cd),
   (BootDevice.bios, BootTarget.biosSetup)]

/-- Modelled from the spec: the persistence translation
{True→CONTINUOUS, False→ONCE} used by `set_boot_device`. -/
def persistEnabled (persistent : Bool) : BootEnabled :=
  if persistent then BootEnabled.continuous else BootEnabled.once

/-- Modelled from the spec: the message of the normalized error raised
when a boot-device set fails (prefix `Redfish set boot device`, node
identifier and underlying message, per the spec and the unit tests). -/
def set_boot_device_fail_msg (uuid emsg : String) : String :=
  "Redfish set boot device failed for node " ++ uuid ++ ". Error: " ++ emsg

/-- Modelled from the spec: the message of the normalized error raised
when NMI injection fails (prefix `Redfish inject NMI`, node identifier
and underlying message, per the spec and the unit tests). -/
def inject_nmi_fail_msg (uuid emsg : String) : String :=
  "Redfish inject NMI failed for node " ++ uuid ++ ". Error: " ++ emsg

/-- Modelled from the spec: `RedfishManagement.set_boot_device`.
Translates the device through the reverse boot-device map and the
persistence flag through {True→CONTINUOUS, False→ONCE}, then issues one
combined boot-source write; a vendor error is re-raised as
`RedfishError`. -/
def RedfishManagement.set_boot_device (node : Node) (system : System)
    (device : BootDevice) (persistent : Bool) : AdapterResult Unit :=
  let target := dget BOOT_DEVICE_MAP_REV device
  let enabled := persistEnabled persistent
  match system.set_system_boot_source target enabled with
  | Except.ok _ => (Except.ok (), [VendorCall.setBootSource target enabled])
  | Except.error e =>
      (Except.error (AdapterErr.redfish
        ⟨set_boot_device_fail_msg node.uuid e.msg⟩),
       [VendorCall.setBootSource target enabled])

/-- Modelled from the spec: `RedfishManagement.get_boot_device`.
Reads the reported boot attribute and reverse-translates: the target
through the inverse mapping, the enabled flag through
{CONTINUOUS→True, everything else→False}. -/
def RedfishManagement.get_boot_device (system : System) :
    Option BootDevice × Bool :=
  (dget BOOT_DEVICE_MAP system.boot_target,
   decide (system.boot_enabled = BootEnabled.continuous))

/-- Modelled from the spec: `RedfishManagement.inject_nmi`.  Issues the
vendor NMI reset command unconditionally; a vendor error is re-raised
as `RedfishError`. -/
def RedfishManagement.inject_nmi (node : Node) (system : System) :
    AdapterResult Unit :=
  match system.reset_system (some ResetCmd.nmi) with
  | Except.ok _ => (Except.ok (), [VendorCall.reset (some ResetCmd.nmi)])
  | Except.error e =>
      (Except.error (AdapterErr.redfish
        ⟨inject_nmi_fail_msg node.uuid e.msg⟩),
       [VendorCall.reset (some ResetCmd.nmi)])

/-- A Python dict of property descriptions. -/
def PropDict : Type := List (String × String)

/-- A heap of dict objects: references are indices into `cells`;
allocation appends a new cell.  This models Python object identity for
`COMMON_PROPERTIES.copy()`. -/
structure Store where
  cells : List PropDict

/-- Dereference a dict object. -/
def Store.read (s : Store) (r : Nat) : PropDict :=
  s.cells.getD r []

/-- Allocate a new dict object with the given contents, returning the
new heap and the fresh reference. -/
def Store.alloc (s : Store) (d : PropDict) : Store × Nat :=
  (⟨s.cells ++ [d]⟩, s.cells.length)

/-- `d[k] = v` on an association-list dict. -/
def dset : List (String × String) → String → String → List (String × String)
  | [], k, v => [(k, v)]
  | (k0, v0) :: rest, k, v =>
      if k0 = k then (k, v) :: rest else (k0, v0) :: dset rest k v

/-- In-place mutation `heap[r][k] = v` of the dict object at `r`. -/
def Store.writeKey (s : Store) (r : Nat) (k v : String) : Store :=
  ⟨s.cells.set r (dset (s.cells.getD r []) k v)⟩

/-- `RedfishPower.get_properties`: returns
`redfish_utils.COMMON_PROPERTIES.copy()` — a freshly allocated dict
whose contents are those of the shared table at `commonRef`. -/
def RedfishPower.get_properties (s : Store) (commonRef : Nat) :
    Store × Nat :=
  s.alloc (s.read commonRef)

/-- A remote system that reports the given power state and whose
commands all succeed; used to instantiate theorems at concrete inputs. -/
def okSystem (ps : SushyPowerState) : System where
  power_state := Except.ok ps
  reset_system := fun _ => Except.ok ()
  boot_target := BootTarget.pxe
  boot_enabled := BootEnabled.once
  set_system_boot_source := fun _ _ => Except.ok ()

/-- A concrete node for witnesses and counterexamples. -/
def node0 : Node := ⟨"node-0"⟩

/-- A remote system whose power-state read raises a vendor error. -/
def readFailSystem : System where
  power_state := Except.error ⟨"boom"⟩
  reset_system := fun _ => Except.ok ()
  boot_target := BootTarget.pxe
  boot_enabled := BootEnabled.once
  set_system_boot_source := fun _ _ => Except.ok ()

/-- A remote system whose power-state read succeeds but whose commands
all raise the vendor error `"boom"`. -/
def resetFailSystem (ps : SushyPowerState) : System where
  power_state := Except.ok ps
  reset_system := fun _ => Except.error ⟨"boom"⟩
  boot_target := BootTarget.pxe
  boot_enabled := BootEnabled.once
  set_system_boot_source := fun _ _ => Except.error ⟨"boom"⟩

/-- A remote system reporting boot attribute {target: PXE,
enabled: CONTINUOUS}. -/
def pxeContinuousSystem : System where
  power_state := Except.ok SushyPowerState.on
  reset_system := fun _ => Except.ok ()
  boot_target := BootTarget.pxe
  boot_enabled := BootEnabled.continuous
  set_system_boot_source := fun _ _ => Except.ok ()

instance {α β : Type} [DecidableEq α] [DecidableEq β] :
    DecidableEq (Except α β) := fun x y =>
  match x, y with
  | Except.ok a, Except.ok b =>
      if h : a = b then isTrue (congrArg Except.ok h)
      else isFalse (fun hc => h (Except.ok.inj hc))
  | Except.ok _, Except.error _ => isFalse (fun hc => Except.noConfusion hc)
  | Except.error _, Except.ok _ => isFalse (fun hc => Except.noConfusion hc)
  | Except.error a, Except.error b =>
      if h : a = b then isTrue (congrArg Except.error h)
      else isFalse (fun hc => h (Except.error.inj hc))

/-- Whether an adapter outcome is a raised normalized `RedfishError`. -/
def raisesRedfishError {α : Type} : Except AdapterErr α → Bool
  | Except.error (AdapterErr.redfish _) => true
  | _ => false

lemma set_power_state_eq (node : Node) (system : System)
    (target : IronicPowerState) :
    RedfishPower.set_power_state node system target
      = (match system.reset_system (dget SET_POWER_STATE_MAP target) with
         | Except.ok _ => Except.ok ()
         | Except.error e =>
             Except.error (AdapterErr.redfish
               ⟨set_power_state_fail_msg node.uuid e.msg⟩),
         [VendorCall.reset (dget SET_POWER_STATE_MAP target)]) := by
  unfold RedfishPower.set_power_state
  dsimp only
  cases system.reset_system (dget SET_POWER_STATE_MAP target) <;> rfl

lemma set_power_state_trace (node : Node) (system : System)
    (target : IronicPowerState) :
    (RedfishPower.set_power_state node system target).2
      = [VendorCall.reset (dget SET_POWER_STATE_MAP target)] := by
  rw [set_power_state_eq]

lemma reboot_eq (node : Node) (system : System) (ps : SushyPowerState)
    (h : system.power_state = Except.ok ps) :
    RedfishPower.reboot node system
      = (match system.reset_system (rebootCmd ps) with
         | Except.ok _ => Except.ok ()
         | Except.error e =>
             Except.error (AdapterErr.redfish
               ⟨reboot_fail_msg node.uuid e.msg⟩),
         [VendorCall.reset (rebootCmd ps)]) := by
  unfold RedfishPower.reboot
  rw [h]
  dsimp only
  cases system.reset_system (rebootCmd ps) <;> rfl

lemma reboot_trace (node : Node) (system : System) (ps : SushyPowerState)
    (h : system.power_state = Except.ok ps) :
    (RedfishPower.reboot node system).2 = [VendorCall.reset (rebootCmd ps)] := by
  rw [reboot_eq node system ps h]

lemma set_boot_device_eq (node : Node) (system : System)
    (device : BootDevice) (persistent : Bool) :
    RedfishManagement.set_boot_device node system device persistent
      = (match system.set_system_boot_source (dget BOOT_DEVICE_MAP_REV device)
             (persistEnabled persistent) with
         | Except.ok _ => Except.ok ()
         | Except.error e =>
             Except.error (AdapterErr.redfish
               ⟨set_boot_device_fail_msg node.uuid e.msg⟩),
         [VendorCall.setBootSource (dget BOOT_DEVICE_MAP_REV device)
            (persistEnabled persistent)]) := by
  unfold RedfishManagement.set_boot_device
  dsimp only
  cases system.set_system_boot_source (dget BOOT_DEVICE_MAP_REV device)
      (persistEnabled persistent) <;> rfl

lemma set_boot_device_trace (node : Node) (system : System)
    (device : BootDevice) (persistent : Bool) :
    (RedfishManagement.set_boot_device node system device persistent).2
      = [VendorCall.setBootSource (dget BOOT_DEVICE_MAP_REV device)
           (persistEnabled persistent)] := by
  rw [set_boot_device_eq]

/-- C1 counterexample: with current vendor power state POWERING_ON — a
non-ON vendor value — `reboot` issues FORCE_RESTART, not the ON command
the claim requires for every non-ON vendor value. -/
theorem reboot_poweringOn_issues_forceRestart :
    (RedfishPower.reboot node0 (okSystem SushyPowerState.poweringOn)).2
        = [VendorCall.reset (some ResetCmd.forceRestart)] ∧
    (RedfishPower.reboot node0 (okSystem SushyPowerState.poweringOn)).2
        ≠ [VendorCall.reset (some ResetCmd.resetOn)] := by
  exact ⟨rfl, by decide⟩

/-- C1 (amended): when the power-state read succeeds, `reboot` issues
exactly one FORCE_RESTART if the vendor state is ON or POWERING_ON
(those translating to abstract POWER_ON), and exactly one ON command if
the vendor state is OFF, POWERING_OFF or any unmapped value; no other
reset call is made. -/
theorem reboot_reset_dispatch (node : Node) (system : System)
    (ps : SushyPowerState) (h : system.power_state = Except.ok ps) :
    ((ps = SushyPowerState.on ∨ ps = SushyPowerState.poweringOn) →
        (RedfishPower.reboot node system).2
          = [VendorCall.reset (some ResetCmd.forceRestart)]) ∧
    ((ps = SushyPowerState.off ∨ ps = SushyPowerState.poweringOff ∨
        (∃ s, ps = SushyPowerState.other s)) →
        (RedfishPower.reboot node system).2
          = [VendorCall.reset (some ResetCmd.resetOn)]) := by
  have ht := reboot_trace node system ps h
  constructor
  · rintro (rfl | rfl) <;> rw [ht] <;> rfl
  · rintro (rfl | rfl | ⟨s, rfl⟩) <;> rw [ht] <;> rfl

/-- C1 witness: for a system currently POWERING_ON the reboot trace is
one FORCE_RESTART reset. -/
theorem reboot_reset_dispatch_witness :
    (RedfishPower.reboot node0 (okSystem SushyPowerState.poweringOn)).2
      = [VendorCall.reset (some ResetCmd.forceRestart)] :=
  (reboot_reset_dispatch node0 (okSystem SushyPowerState.poweringOn)
      SushyPowerState.poweringOn rfl).1 (Or.inr rfl)

/-- C3: when the power-state read succeeds, `get_power_state` returns
exactly the table value: ON and POWERING_ON give abstract POWER_ON, OFF
and POWERING_OFF give abstract POWER_OFF, any other vendor value gives
no mapped result (none). -/
theorem get_power_state_translation_table (system : System)
    (ps : SushyPowerState) (h : system.power_state = Except.ok ps) :
    (ps = SushyPowerState.on →
        (RedfishPower.get_power_state system).1
          = Except.ok (some IronicPowerState.powerOn)) ∧
    (ps = SushyPowerState.poweringOn →
        (RedfishPower.get_power_state system).1
          = Except.ok (some IronicPowerState.powerOn)) ∧
    (ps = SushyPowerState.off →
        (RedfishPower.get_power_state system).1
          = Except.ok (some IronicPowerState.powerOff)) ∧
    (ps = SushyPowerState.poweringOff →
        (RedfishPower.get_power_state system).1
          = Except.ok (some IronicPowerState.powerOff)) ∧
    (∀ s, ps = SushyPowerState.other s →
        (RedfishPower.get_power_state system).1 = Except.ok none) := by
  have hg : (RedfishPower.get_power_state system).1
      = Except.ok (dget GET_POWER_STATE_MAP ps) := by
    unfold RedfishPower.get_power_state
    rw [h]
  refine ⟨?_, ?_, ?_, ?_, ?_⟩
  · rintro rfl; rw [hg]; rfl
  · rintro rfl; rw [hg]; rfl
  · rintro rfl; rw [hg]; rfl
  · rintro rfl; rw [hg]; rfl
  · rintro s rfl; rw [hg]; rfl

/-- C3 witness: reading POWERING_ON yields abstract POWER_ON. -/
theorem get_power_state_translation_table_witness :
    (RedfishPower.get_power_state (okSystem SushyPowerState.poweringOn)).1
      = Except.ok (some IronicPowerState.powerOn) :=
  (get_power_state_translation_table (okSystem SushyPowerState.poweringOn)
      SushyPowerState.poweringOn rfl).2.1 rfl

/-- C4: for each abstract target among ON, OFF, REBOOT,
`set_power_state` issues exactly one reset call with the mapped vendor
command (RESET_ON, RESET_FORCE_OFF, RESET_FORCE_RESTART respectively)
and no other vendor call. -/
theorem set_power_state_translation_table (node : Node) (system : System) :
    ((RedfishPower.set_power_state node system IronicPowerState.powerOn).2
        = [VendorCall.reset (some ResetCmd.resetOn)]) ∧
    ((RedfishPower.set_power_state node system IronicPowerState.powerOff).2
        = [VendorCall.reset (some ResetCmd.forceOff)]) ∧
    ((RedfishPower.set_power_state node system IronicPowerState.reboot).2
        = [VendorCall.reset (some ResetCmd.forceRestart)]) := by
  refine ⟨?_, ?_, ?_⟩ <;> rw [set_power_state_trace] <;> rfl

/-- C8: the translation lookups are total with `none` for unmapped
inputs: for an abstract state outside {ON, OFF, REBOOT},
`set_power_state` raises no translation error of its own and issues the
reset call with the undefined (none) command; for a vendor state
outside the four supported values, `get_power_state` returns none. -/
theorem unmapped_values_yield_none (node : Node) (system : System)
    (s t : String) :
    ((RedfishPower.set_power_state node system (IronicPowerState.other s)).2
        = [VendorCall.reset none]) ∧
    (system.reset_system none = Except.ok () →
        (RedfishPower.set_power_state node system
            (IronicPowerState.other s)).1 = Except.ok ()) ∧
    (system.power_state = Except.ok (SushyPowerState.other t) →
        (RedfishPower.get_power_state system).1 = Except.ok none) := by
  have hc : dget SET_POWER_STATE_MAP (IronicPowerState.other s) = none := rfl
  refine ⟨?_, ?_, ?_⟩
  · rw [set_power_state_trace, hc]
  · intro hr
    rw [set_power_state_eq, hc, hr]
  · intro h
    unfold RedfishPower.get_power_state
    rw [h]
    rfl

/-- C8 witness: at the vendor value `"Paused"` and the abstract value
`"rescue"` the lookups yield none and no error of the adapter's own. -/
theorem unmapped_values_yield_none_witness :
    ((RedfishPower.set_power_state node0
        (okSystem (SushyPowerState.other "Paused"))
        (IronicPowerState.other "rescue")).2 = [VendorCall.reset none]) ∧
    ((RedfishPower.set_power_state node0
        (okSystem (SushyPowerState.other "Paused"))
        (IronicPowerState.other "rescue")).1 = Except.ok ()) ∧
    ((RedfishPower.get_power_state
        (okSystem (SushyPowerState.other "Paused"))).1 = Except.ok none) :=
  ⟨(unmapped_values_yield_none node0 (okSystem (SushyPowerState.other "Paused"))
      "rescue" "Paused").1,
   (unmapped_values_yield_none node0 (okSystem (SushyPowerState.other "Paused"))
      "rescue" "Paused").2.1 rfl,
   (unmapped_values_yield_none node0 (okSystem (SushyPowerState.other "Paused"))
      "rescue" "Paused").2.2 rfl⟩

/-- C9: `get_supported_power_states` returns exactly
[POWER_ON, POWER_OFF, REBOOT] — the keys of `SET_POWER_STATE_MAP` in
insertion order — for every node. -/
theorem get_supported_power_states_fixed (node : Node) :
    RedfishPower.get_supported_power_states node
      = [IronicPowerState.powerOn, IronicPowerState.powerOff,
         IronicPowerState.reboot] := rfl

/-- C2 counterexample: a vendor error raised by the power-state read is
not re-raised as a `RedfishError`: both `reboot` and `get_power_state`
propagate the vendor error itself. -/
theorem power_state_read_error_not_normalized :
    RedfishPower.reboot node0 readFailSystem
        = (Except.error (AdapterErr.sushy ⟨"boom"⟩), []) ∧
    raisesRedfishError (RedfishPower.reboot node0 readFailSystem).1 = false ∧
    RedfishPower.get_power_state readFailSystem
        = (Except.error (AdapterErr.sushy ⟨"boom"⟩), []) ∧
    raisesRedfishError (RedfishPower.get_power_state readFailSystem).1
        = false :=
  ⟨rfl, rfl, rfl, rfl⟩

/-- C2 (amended): a vendor-protocol error raised by an issued vendor
command — the reset in `set_power_state`, `reboot` or `inject_nmi`, the
boot-source write in `set_boot_device` — is caught and re-raised as a
single normalized `RedfishError` carrying the node identifier inside a
human-readable message, the original exception discarded; but a vendor
error raised by the power-state read in `get_power_state` or `reboot`
is not caught and propagates as-is. -/
theorem vendor_error_normalization (node : Node) (system : System)
    (e : SushyError) :
    (system.power_state = Except.error e →
        RedfishPower.get_power_state system
          = (Except.error (AdapterErr.sushy e), []) ∧
        RedfishPower.reboot node system
          = (Except.error (AdapterErr.sushy e), [])) ∧
    (∀ target : IronicPowerState,
        system.reset_system (dget SET_POWER_STATE_MAP target)
            = Except.error e →
        (RedfishPower.set_power_state node system target).1
          = Except.error (AdapterErr.redfish
              ⟨set_power_state_fail_msg node.uuid e.msg⟩)) ∧
    (∀ ps : SushyPowerState, system.power_state = Except.ok ps →
        system.reset_system (rebootCmd ps) = Except.error e →
        (RedfishPower.reboot node system).1
          = Except.error (AdapterErr.redfish
              ⟨reboot_fail_msg node.uuid e.msg⟩)) ∧
    (∀ (device : BootDevice) (persistent : Bool),
        system.set_system_boot_source (dget BOOT_DEVICE_MAP_REV device)
            (persistEnabled persistent) = Except.error e →
        (RedfishManagement.set_boot_device node system device persistent).1
          = Except.error (AdapterErr.redfish
              ⟨set_boot_device_fail_msg node.uuid e.msg⟩)) ∧
    (system.reset_system (some ResetCmd.nmi) = Except.error e →
        (RedfishManagement.inject_nmi node system).1
          = Except.error (AdapterErr.redfish
              ⟨inject_nmi_fail_msg node.uuid e.msg⟩)) := by
  refine ⟨?_, ?_, ?_, ?_, ?_⟩
  · intro h
    constructor
    · unfold RedfishPower.get_power_state
      rw [h]
    · unfold RedfishPower.reboot
      rw [h]
  · intro target hr
    rw [set_power_state_eq, hr]
  · intro ps hps hr
    rw [reboot_eq node system ps hps, hr]
  · intro device persistent hb
    rw [set_boot_device_eq, hb]
  · intro hn
    unfold RedfishManagement.inject_nmi
    rw [hn]

/-- C2 witness: with a system whose power-state read raises the vendor
error "boom", both reads propagate that vendor error unwrapped. -/
theorem vendor_error_normalization_witness :
    RedfishPower.get_power_state readFailSystem
        = (Except.error (AdapterErr.sushy ⟨"boom"⟩), []) ∧
    RedfishPower.reboot node0 readFailSystem
        = (Except.error (AdapterErr.sushy ⟨"boom"⟩), []) :=
  (vendor_error_normalization node0 readFailSystem ⟨"boom"⟩).1 rfl

/-- C5: a vendor exception raised by the issued command in
`set_power_state`, `reboot`, `set_boot_device` or `inject_nmi` results
in exactly one normalized `RedfishError`, with the triggering vendor
call attempted exactly once with its translated arguments. -/
theorem vendor_error_single_attempt (node : Node) (system : System)
    (e : SushyError) :
    (∀ target : IronicPowerState,
        system.reset_system (dget SET_POWER_STATE_MAP target)
            = Except.error e →
        RedfishPower.set_power_state node system target
          = (Except.error (AdapterErr.redfish
               ⟨set_power_state_fail_msg node.uuid e.msg⟩),
             [VendorCall.reset (dget SET_POWER_STATE_MAP target)])) ∧
    (∀ ps : SushyPowerState, system.power_state = Except.ok ps →
        system.reset_system (rebootCmd ps) = Except.error e →
        RedfishPower.reboot node system
          = (Except.error (AdapterErr.redfish
               ⟨reboot_fail_msg node.uuid e.msg⟩),
             [VendorCall.reset (rebootCmd ps)])) ∧
    (∀ (device : BootDevice) (persistent : Bool),
        system.set_system_boot_source (dget BOOT_DEVICE_MAP_REV device)
            (persistEnabled persistent) = Except.error e →
        RedfishManagement.set_boot_device node system device persistent
          = (Except.error (AdapterErr.redfish
               ⟨set_boot_device_fail_msg node.uuid e.msg⟩),
             [VendorCall.setBootSource (dget BOOT_DEVICE_MAP_REV device)
                (persistEnabled persistent)])) ∧
    (system.reset_system (some ResetCmd.nmi) = Except.error e →
        RedfishManagement.inject_nmi node system
          = (Except.error (AdapterErr.redfish
               ⟨inject_nmi_fail_msg node.uuid e.msg⟩),
             [VendorCall.reset (some ResetCmd.nmi)])) := by
  refine ⟨?_, ?_, ?_, ?_⟩
  · intro target hr
    rw [set_power_state_eq, hr]
  · intro ps hps hr
    rw [reboot_eq node system ps hps, hr]
  · intro device persistent hb
    rw [set_boot_device_eq, hb]
  · intro hn
    unfold RedfishManagement.inject_nmi
    rw [hn]

/-- C5 witness: a failing reset during `set_power_state(ON)` yields the
normalized error and a single RESET_ON attempt. -/
theorem vendor_error_single_attempt_witness :
    RedfishPower.set_power_state node0 (resetFailSystem SushyPowerState.on)
        IronicPowerState.powerOn
      = (Except.error (AdapterErr.redfish
           ⟨set_power_state_fail_msg "node-0" "boom"⟩),
         [VendorCall.reset (some ResetCmd.resetOn)]) :=
  (vendor_error_single_attempt node0 (resetFailSystem SushyPowerState.on)
      ⟨"boom"⟩).1 IronicPowerState.powerOn rfl

/-- C6: for each abstract boot device, `set_boot_device` with default
persistence issues exactly one boot-source write with the mapped vendor
target (PXE→PXE, DISK→HDD, CDROM→CD, BIOS→BIOS_SETUP) and the ONCE
flag; with persistent=True it issues the CONTINUOUS flag with the same
target mapping. -/
theorem set_boot_device_translation_table (node : Node) (system : System) :
    ((RedfishManagement.set_boot_device node system BootDevice.pxe false).2
        = [VendorCall.setBootSource (some BootTarget.pxe)
             BootEnabled.once]) ∧
    ((RedfishManagement.set_boot_device node system BootDevice.disk false).2
        = [VendorCall.setBootSource (some BootTarget.hdd)
             BootEnabled.once]) ∧
    ((RedfishManagement.set_boot_device node system BootDevice.cdrom false).2
        = [VendorCall.setBootSource (some BootTarget.cd)
             BootEnabled.once]) ∧
    ((RedfishManagement.set_boot_device node system BootDevice.bios false).2
        = [VendorCall.setBootSource (some BootTarget.biosSetup)
             BootEnabled.once]) ∧
    (∀ device : BootDevice,
        (RedfishManagement.set_boot_device node system device true).2
          = [VendorCall.setBootSource (dget BOOT_DEVICE_MAP_REV device)
               BootEnabled.continuous]) := by
  refine ⟨?_, ?_, ?_, ?_, ?_⟩
  · rw [set_boot_device_trace]; rfl
  · rw [set_boot_device_trace]; rfl
  · rw [set_boot_device_trace]; rfl
  · rw [set_boot_device_trace]; rfl
  · intro device
    rw [set_boot_device_trace]; rfl

/-- C7: `get_boot_device` reverse-translates the reported target
through the inverse of the boot-device mapping (its result is `some d`
exactly when the forward map sends `d` to the reported target), and
reports persistent exactly when the enabled flag is CONTINUOUS. -/
theorem get_boot_device_reverse_translation (system : System)
    (d : BootDevice) :
    ((RedfishManagement.get_boot_device system).1 = some d ↔
        dget BOOT_DEVICE_MAP_REV d = some system.boot_target) ∧
    ((RedfishManagement.get_boot_device system).2 = true ↔
        system.boot_enabled = BootEnabled.continuous) := by
  constructor
  · unfold RedfishManagement.get_boot_device
    dsimp only
    cases hb : system.boot_target <;> cases d <;>
      simp [dget, BOOT_DEVICE_MAP, BOOT_DEVICE_MAP_REV]
  · unfold RedfishManagement.get_boot_device
    dsimp only
    simp [decide_eq_true_eq]

/-- C7 witness: the reported attribute {target: PXE, enabled:
CONTINUOUS} gives {boot_device: PXE, persistent: True}. -/
theorem get_boot_device_reverse_translation_witness :
    (RedfishManagement.get_boot_device pxeContinuousSystem).1
        = some BootDevice.pxe ∧
    (RedfishManagement.get_boot_device pxeContinuousSystem).2 = true :=
  ⟨(get_boot_device_reverse_translation pxeContinuousSystem
      BootDevice.pxe).1.mpr rfl,
   (get_boot_device_reverse_translation pxeContinuousSystem
      BootDevice.pxe).2.mpr rfl⟩

lemma getD_append_lt {α : Type} (l l2 : List α) (n : Nat) (d : α)
    (h : n < l.length) : (l ++ l2).getD n d = l.getD n d := by
  induction l generalizing n with
  | nil => exact absurd h (Nat.not_lt_zero n)
  | cons a t ih =>
      cases n with
      | zero => rfl
      | succ m => exact ih m (Nat.lt_of_succ_lt_succ h)

lemma getD_concat_self {α : Type} (l : List α) (a d : α) :
    (l ++ [a]).getD l.length d = a := by
  induction l with
  | nil => rfl
  | cons b t ih => exact ih

lemma getD_set_ne {α : Type} (l : List α) (i j : Nat) (a d : α)
    (h : i ≠ j) : (l.set i a).getD j d = l.getD j d := by
  induction l generalizing i j with
  | nil => rfl
  | cons b t ih =>
      cases i with
      | zero =>
          cases j with
          | zero => exact absurd rfl h
          | succ m => rfl
      | succ n =>
          cases j with
          | zero => rfl
          | succ m => exact ih n m (fun hc => h (congrArg Nat.succ hc))

/-- C10: `get_properties` allocates a fresh copy of the shared
common-properties table: the returned reference differs from the
table's, mutating the returned dict leaves the table unchanged, and a
subsequent `get_properties` call still returns the original contents. -/
theorem get_properties_returns_fresh_copy (s : Store) (commonRef : Nat)
    (k v : String) (h : commonRef < s.cells.length) :
    ((RedfishPower.get_properties s commonRef).2 ≠ commonRef) ∧
    (((RedfishPower.get_properties s commonRef).1.writeKey
          (RedfishPower.get_properties s commonRef).2 k v).read commonRef
        = s.read commonRef) ∧
    ((RedfishPower.get_properties
          ((RedfishPower.get_properties s commonRef).1.writeKey
            (RedfishPower.get_properties s commonRef).2 k v)
          commonRef).1.read
        (RedfishPower.get_properties
          ((RedfishPower.get_properties s commonRef).1.writeKey
            (RedfishPower.get_properties s commonRef).2 k v)
          commonRef).2
      = s.read commonRef) := by
  have hne : s.cells.length ≠ commonRef := Nat.ne_of_gt h
  have h2 : (((RedfishPower.get_properties s commonRef).1.writeKey
        (RedfishPower.get_properties s commonRef).2 k v).read commonRef)
      = s.read commonRef := by
    unfold RedfishPower.get_properties Store.alloc Store.writeKey Store.read
    dsimp only
    rw [getD_set_ne _ _ _ _ _ hne]
    exact getD_append_lt _ _ _ _ h
  refine ⟨hne, h2, ?_⟩
  calc (RedfishPower.get_properties
          ((RedfishPower.get_properties s commonRef).1.writeKey
            (RedfishPower.get_properties s commonRef).2 k v)
          commonRef).1.read
        (RedfishPower.get_properties
          ((RedfishPower.get_properties s commonRef).1.writeKey
            (RedfishPower.get_properties s commonRef).2 k v)
          commonRef).2
      = (((RedfishPower.get_properties s commonRef).1.writeKey
            (RedfishPower.get_properties s commonRef).2 k v).read
          commonRef) := by
        unfold RedfishPower.get_properties Store.alloc Store.read
        dsimp only
        exact getD_concat_self _ _ _
    _ = s.read commonRef := h2

/-- C10 witness: on a one-cell heap holding the table at reference 0,
the copy is fresh and mutation of it does not leak into the table. -/
theorem get_properties_returns_fresh_copy_witness :
    (0 : Nat) < (Store.mk [[("redfish_address", "required")]]).cells.length ∧
    ((RedfishPower.get_properties
        (Store.mk [[("redfish_address", "required")]]) 0).2 ≠ 0) :=
  ⟨by decide,
   (get_properties_returns_fresh_copy
      (Store.mk [[("redfish_address", "required")]]) 0 "redfish_address"
      "overwritten" (by decide)).1⟩
